import Mathlib

/-!
Verification of the brother_ql printer driver and raster pipeline
(repository printer_bot_rs).

The definitions below are a shallow embedding of the Rust sources:
  - src/brother_ql/src/driver.rs : status decoding, media geometry table,
    command encoding, device read retry loop;
  - src/brother_ql/src/image.rs  : raster bit-packing and the print
    orchestration sequence;
  - src/src/main.rs              : the older copy of the raster bit-packing
    (no left padding).
Machine integers (u8/u16/u32/i32) are modelled as Nat/Int; where the Rust
code can overflow or index out of bounds (a panic), the embedding returns
Option.none at exactly that point.
-/

set_option maxRecDepth 8000

namespace PrinterBot

/-! ### Status codec (src/brother_ql/src/driver.rs, lines 40-120) -/

/-- MediaType enum, driver.rs lines 90-95, with its u8 discriminants. -/
inductive MediaType where
  | NoMedia
  | Continuous
  | DieCutLabels
deriving DecidableEq

/-- Discriminant value of the MediaType enum (used by `status.media_type as u8`). -/
def MediaType.code : MediaType → Nat
  | MediaType.NoMedia => 0x00
  | MediaType.Continuous => 0x0A
  | MediaType.DieCutLabels => 0x0B

/-- StatusType enum, driver.rs lines 96-103. -/
inductive StatusType where
  | ReplyToStatusRequest
  | PrintingCompleted
  | Error
  | Notification
  | PhaseChange
deriving DecidableEq

/-- Wire code that decodes to each StatusType (read_status, driver.rs lines 313-320). -/
def StatusType.code : StatusType → Nat
  | StatusType.ReplyToStatusRequest => 0x00
  | StatusType.PrintingCompleted => 0x01
  | StatusType.Error => 0x02
  | StatusType.Notification => 0x05
  | StatusType.PhaseChange => 0x06

/-- PhaseState enum, driver.rs lines 105-109. -/
inductive PhaseState where
  | Waiting
  | Printing
deriving DecidableEq

/-- Wire code that decodes to each PhaseState (read_status, driver.rs lines 322-326). -/
def PhaseState.code : PhaseState → Nat
  | PhaseState.Waiting => 0x00
  | PhaseState.Printing => 0x01

/-- ErrorInformation1, driver.rs lines 40-47. -/
structure ErrorInformation1 where
  no_media_when_printing : Bool
  end_of_media : Bool
  tape_cutter_jam : Bool
  main_unit_in_use : Bool
  fan_doesnt_work : Bool
deriving DecidableEq

/-- ErrorInformation1::from_bits, driver.rs lines 56-64. -/
def ErrorInformation1.from_bits (bits : Nat) : ErrorInformation1 where
  no_media_when_printing := bits &&& 0x01 != 0
  end_of_media := bits &&& 0x02 != 0
  tape_cutter_jam := bits &&& 0x04 != 0
  main_unit_in_use := bits &&& 0x10 != 0
  fan_doesnt_work := bits &&& 0x80 != 0

/-- Spec-side re-encoder for ErrorInformation1: the byte whose mask bits are
exactly the decoded flags (used to state the round-trip property of C3). -/
def ErrorInformation1.to_bits (e : ErrorInformation1) : Nat :=
  (if e.no_media_when_printing then 0x01 else 0) |||
  (if e.end_of_media then 0x02 else 0) |||
  (if e.tape_cutter_jam then 0x04 else 0) |||
  (if e.main_unit_in_use then 0x10 else 0) |||
  (if e.fan_doesnt_work then 0x80 else 0)

/-- ErrorInformation2, driver.rs lines 66-72. -/
structure ErrorInformation2 where
  transmission_error : Bool
  cover_opened_while_printing : Bool
  cannot_feed : Bool
  system_error : Bool
deriving DecidableEq

/-- ErrorInformation2::from_bits, driver.rs lines 80-87. -/
def ErrorInformation2.from_bits (bits : Nat) : ErrorInformation2 where
  transmission_error := bits &&& 0x04 != 0
  cover_opened_while_printing := bits &&& 0x10 != 0
  cannot_feed := bits &&& 0x40 != 0
  system_error := bits &&& 0x80 != 0

/-- Spec-side re-encoder for ErrorInformation2 (round-trip property of C3). -/
def ErrorInformation2.to_bits (e : ErrorInformation2) : Nat :=
  (if e.transmission_error then 0x04 else 0) |||
  (if e.cover_opened_while_printing then 0x10 else 0) |||
  (if e.cannot_feed then 0x40 else 0) |||
  (if e.system_error then 0x80 else 0)

/-- PrinterStatus, driver.rs lines 111-120.  u8 fields become Nat. -/
structure PrinterStatus where
  media_width : Nat
  media_length : Nat
  media_type : MediaType
  error1 : ErrorInformation1
  error2 : ErrorInformation2
  status_type : StatusType
  phase_state : PhaseState
deriving DecidableEq

/-- PrinterStatus::pixel_width, driver.rs lines 124-163: the fixed media
geometry table, reproduced entry for entry (including the subtractions). -/
def PrinterStatus.pixel_width (s : PrinterStatus) : Option Nat :=
  let p := (s.media_width, s.media_length)
  -- Endless tapes (length = 0) - dots_total - offset_r
  if p = (12, 0) then some (142 - 29)
  else if p = (18, 0) then some (256 - 171)
  else if p = (29, 0) then some (342 - 6)
  else if p = (38, 0) then some (449 - 12)
  else if p = (50, 0) then some (590 - 12)
  else if p = (54, 0) then some (636 - 0)
  else if p = (62, 0) then some (732 - 12)
  else if p = (102, 0) then some (1200 - 12)
  else if p = (104, 0) then some (1224 - 12)
  -- Die-cut labels
  else if p = (17, 54) then some (201 - 0)
  else if p = (17, 87) then some (201 - 0)
  else if p = (23, 23) then some (272 - 42)
  else if p = (29, 42) then some (342 - 6)
  else if p = (29, 90) then some (342 - 6)
  else if p = (38, 90) then some (449 - 12)
  else if p = (39, 48) then some (461 - 6)
  else if p = (52, 29) then some (614 - 0)
  else if p = (54, 29) then some (630 - 60)
  else if p = (60, 87) then some (708 - 18)
  else if p = (62, 29) then some (732 - 12)
  else if p = (62, 100) then some (732 - 12)
  else if p = (102, 51) then some (1200 - 12)
  else if p = (102, 153) then some (1200 - 12)
  else if p = (104, 164) then some (1224 - 12)
  -- Round die-cut labels
  else if p = (24, 24) then some (284 - 42)
  else if p = (58, 58) then some (688 - 51)
  -- Unknown media
  else none

/-- The (media_width, media_length) pairs that appear in the pixel_width table. -/
def pixel_width_domain : List (Nat × Nat) :=
  [(12, 0), (18, 0), (29, 0), (38, 0), (50, 0), (54, 0), (62, 0), (102, 0), (104, 0),
   (17, 54), (17, 87), (23, 23), (29, 42), (29, 90), (38, 90), (39, 48), (52, 29),
   (54, 29), (60, 87), (62, 29), (62, 100), (102, 51), (102, 153), (104, 164),
   (24, 24), (58, 58)]

/-- Helper building a PrinterStatus with the given geometry (the other fields
do not influence pixel_width). -/
def mkStatus (mw ml : Nat) : PrinterStatus where
  media_width := mw
  media_length := ml
  media_type := MediaType.NoMedia
  error1 := ErrorInformation1.from_bits 0
  error2 := ErrorInformation2.from_bits 0
  status_type := StatusType.ReplyToStatusRequest
  phase_state := PhaseState.Waiting

/-- Target width selection of render_image, image.rs line 145:
`status.pixel_width().unwrap_or(720)`. -/
def render_target_width (s : PrinterStatus) : Nat :=
  (s.pixel_width).getD 720

/-! ### read_status (driver.rs lines 301-337)

The Rust code asserts the two header bytes and panics on an unrecognized
media type / status type / phase state code; the embedding returns none at
exactly those points. -/

/-- Decoder for the media type byte (read_status, driver.rs lines 306-311). -/
def decode_media_type (b : Nat) : Option MediaType :=
  if b = 0x00 then some MediaType.NoMedia
  else if b = 0x0A then some MediaType.Continuous
  else if b = 0x0B then some MediaType.DieCutLabels
  else none

/-- Decoder for the status type byte (read_status, driver.rs lines 313-320). -/
def decode_status_type (b : Nat) : Option StatusType :=
  if b = 0x00 then some StatusType.ReplyToStatusRequest
  else if b = 0x01 then some StatusType.PrintingCompleted
  else if b = 0x02 then some StatusType.Error
  else if b = 0x05 then some StatusType.Notification
  else if b = 0x06 then some StatusType.PhaseChange
  else none

/-- Decoder for the phase state byte (read_status, driver.rs lines 322-326). -/
def decode_phase_state (b : Nat) : Option PhaseState :=
  if b = 0x00 then some PhaseState.Waiting
  else if b = 0x01 then some PhaseState.Printing
  else none

/-- PrinterCommander::read_status, driver.rs lines 301-337, acting on the
32-byte reply `res` already read from the device. -/
def read_status (res : List Nat) : Option PrinterStatus :=
  if res.getD 0 0 = 0x80 then
    if res.getD 1 0 = 0x20 then
      match decode_media_type (res.getD 11 0), decode_status_type (res.getD 18 0),
            decode_phase_state (res.getD 19 0) with
      | some mt, some st, some ph =>
          some { media_width := res.getD 10 0
                 media_type := mt
                 media_length := res.getD 17 0
                 error1 := ErrorInformation1.from_bits (res.getD 8 0)
                 error2 := ErrorInformation2.from_bits (res.getD 9 0)
                 status_type := st
                 phase_state := ph }
      | _, _, _ => none
    else none
  else none

/-! ### Command codec (driver.rs lines 166-284) -/

/-- PrinterCommandMode enum, driver.rs lines 166-176, with discriminants. -/
inductive PrinterCommandMode where
  | EscpNormal
  | Raster
  | EscpText
  | PtouchTemplate
deriving DecidableEq

/-- Discriminant of PrinterCommandMode (`mode.clone() as u8`). -/
def PrinterCommandMode.code : PrinterCommandMode → Nat
  | PrinterCommandMode.EscpNormal => 0x00
  | PrinterCommandMode.Raster => 0x01
  | PrinterCommandMode.EscpText => 0x02
  | PrinterCommandMode.PtouchTemplate => 0x03

/-- PrinterMode, driver.rs lines 178-181. -/
structure PrinterMode where
  auto_cut : Bool
deriving DecidableEq

/-- PrinterExpandedMode, driver.rs lines 183-188. -/
structure PrinterExpandedMode where
  cut_at_end : Bool
  high_resolution_printing : Bool
deriving DecidableEq

/-- PrinterCommand, driver.rs lines 190-226.  The 90-byte raster line
`[u8; 90]` is modelled as a list of bytes; `i32` becomes Int, `u8`/`u16`
become Nat. -/
inductive PrinterCommand where
  | Reset
  | Invalid
  | Initialize
  | StatusInfoRequest
  | SetCommandMode (mode : PrinterCommandMode)
  | SetPrintInformation (status : PrinterStatus) (line_count : Int)
  | SetMode (mode : PrinterMode)
  | SetPageNumber (page_number : Nat)
  | SetExpandedMode (mode : PrinterExpandedMode)
  | SetMarginAmount (margin : Nat)
  | SetCompressionMode
  | RasterGraphicsTransfer (data : List Nat)
  | ZeroRasterGraphics
  | Print
  | PrintWithFeeding
  | SetBaudRate (baud_rate : Nat)
deriving DecidableEq

/-- Little-endian bytes of a u16 (`margin.to_le_bytes()`). -/
def u16_le_bytes (n : Nat) : List Nat :=
  [n % 256, n / 256 % 256]

/-- Little-endian bytes of an i32 (`line_count.to_le_bytes()`), two's
complement: reduce mod 2^32 first. -/
def i32_le_bytes (n : Int) : List Nat :=
  let u := (n % 4294967296).toNat
  [u % 256, u / 256 % 256, u / 65536 % 256, u / 16777216 % 256]

/-- Rust `b as u8` for a bool. -/
def bool_u8 (b : Bool) : Nat :=
  if b then 1 else 0

/-- PrinterCommand::to_bytes, driver.rs lines 229-283.  The two
copy_from_slice calls are modelled as take/drop splices at the same
positions. -/
def PrinterCommand.to_bytes : PrinterCommand → List Nat
  | PrinterCommand.Reset => List.replicate 200 0x00
  | PrinterCommand.Invalid => [0x00]
  | PrinterCommand.Initialize => [0x1b, 0x40]
  | PrinterCommand.StatusInfoRequest => [0x1b, 0x69, 0x53]
  | PrinterCommand.SetCommandMode mode => [0x1b, 0x69, 0x61, mode.code]
  | PrinterCommand.SetPrintInformation status line_count =>
      let flags := 0x02 ||| 0x04 ||| 0x08 ||| 0x40 ||| 0x80
      let command := [0x1b, 0x69, 0x7a, flags, status.media_type.code,
        status.media_width, status.media_length, 0, 0, 0, 0, 1, 0]
      -- command[7..11].copy_from_slice(&line_count.to_le_bytes())
      command.take 7 ++ i32_le_bytes line_count ++ command.drop 11
  | PrinterCommand.SetMode mode => [0x1b, 0x69, 0x4d, bool_u8 mode.auto_cut <<< 6]
  | PrinterCommand.SetPageNumber page_number => [0x1b, 0x69, 0x41, page_number]
  | PrinterCommand.SetExpandedMode mode =>
      [0x1b, 0x69, 0x4B,
       bool_u8 mode.cut_at_end <<< 4 ||| bool_u8 mode.high_resolution_printing <<< 6]
  | PrinterCommand.SetMarginAmount margin =>
      let command := [0x1b, 0x69, 0x64, 0, 0]
      -- command[3..5].copy_from_slice(&margin.to_le_bytes())
      command.take 3 ++ u16_le_bytes margin ++ command.drop 5
  | PrinterCommand.SetCompressionMode => [0x4d, 0x00]
  | PrinterCommand.RasterGraphicsTransfer data => [0x67, 0x00, 90] ++ data
  | PrinterCommand.ZeroRasterGraphics => [0x5A]
  | PrinterCommand.Print => [0x0c]
  | PrinterCommand.PrintWithFeeding => [0x1A]
  | PrinterCommand.SetBaudRate baud_rate =>
      [0x1b, 0x69, 0x42, baud_rate % 256, (baud_rate >>> 8) % 256]

/-! ### Device channel read retry (driver.rs lines 17-32)

`Printer::read` allocates a buffer of `length` bytes and loops on
`read_exact`; after each failure it sleeps 10 ms, increments `tries`, and
returns a Timeout error once `tries > 10`.  The attempts are indexed by
`attempt`; `success attempt` tells whether the attempt's `read_exact`
succeeds and `data attempt` gives the bytes it stores into the buffer.
The while loop is bounded (it bails out once `tries` reaches 11), so it is
translated with the remaining-iteration count `11 - tries` as fuel. -/

/-- One round of the retry loop of Printer::read.  Fuel n stands for a
`tries` value of `11 - n`; fuel 0 is the `tries > 10` Timeout exit. -/
def read_loop (success : Nat → Bool) (data : Nat → Nat → Nat) (length attempt : Nat) :
    Nat → Option (List Nat)
  | 0 => none
  | fuel + 1 =>
      if success attempt then some ((List.range length).map (data attempt))
      else read_loop success data length (attempt + 1) fuel

/-- Printer::read, driver.rs lines 17-32: starts at attempt 0 with
`tries = 0`, so up to 11 attempts are made before the Timeout error. -/
def printer_read (success : Nat → Bool) (data : Nat → Nat → Nat) (length : Nat) :
    Option (List Nat) :=
  read_loop success data length 0 11

/-! ### Raster bit-packing (image.rs lines 63-112 and src/src/main.rs lines 203-248)

The image is a function from pixel coordinates to the luminance channel of
the Rgba pixel (`img.get_pixel(x, y).0[0]`).  A raster line is a list of 90
bytes.  `line[89 - byte] |= 1 << bit` becomes an update of the list. -/

/-- The statement `line[89 - byte] |= 1 << bit` of img_to_lines. -/
def set_line_bit (line : List Nat) (byte bit : Nat) : List Nat :=
  line.set (89 - byte) (line.getD (89 - byte) 0 ||| 1 <<< bit)

/-- Body of the inner `for x` loop of img_to_lines (image.rs lines 96-106). -/
def pack_step (img : Nat → Nat → Nat) (padding y : Nat) (line : List Nat) (x : Nat) :
    List Nat :=
  let i := img x y
  let xp := x + padding
  let byte := xp / 8
  let bit := xp % 8
  -- if the pixel is black, set the bit so it's printed (in black)
  if i = 0 then set_line_bit line byte bit else line

/-- One output row of img_to_lines (image.rs lines 94-108). -/
def pack_row (img : Nat → Nat → Nat) (padding w y : Nat) : List Nat :=
  (List.range w).foldl (pack_step img padding y) (List.replicate 90 0)

/-- img_to_lines, image.rs lines 63-112 (the brother_ql copy, with left
padding).  `let padding = 720 - image_width` is a u32 subtraction: when
image_width > 720 it underflows, which is an arithmetic-overflow panic in
Rust, modelled as none.  Under `w ≤ 720` every index `89 - (x + padding) / 8`
stays inside the 90-byte buffer, so no other failure point is reachable. -/
def img_to_lines (img : Nat → Nat → Nat) (w h : Nat) : Option (List (List Nat)) :=
  if 720 < w then none
  else some ((List.range h).map fun y => pack_row img (720 - w) w y)

/-- img_to_lines of src/src/main.rs lines 203-248 (the older copy: no
padding, `byte = x / 8` directly).  For a black pixel at x ≥ 720 the index
computation `89 - byte` underflows usize (a panic), modelled as none. -/
def img_to_lines_main (img : Nat → Nat → Nat) (w h : Nat) : Option (List (List Nat)) :=
  (List.range h).mapM fun y =>
    (List.range w).foldlM
      (fun line x =>
        if img x y = 0 then
          if 89 < x / 8 then none
          else some (set_line_bit line (x / 8) (x % 8))
        else some line)
      (List.replicate 90 0)

/-! ### Resize target height (image.rs line 146) -/

/-- The target height computed by render_image:
`new_width * img.height() / img.width() * if settings.dpi_600 { 2 } else { 1 }`
in u32 arithmetic (`/` is truncating integer division). -/
def new_height (new_width src_height src_width : Nat) (dpi_600 : Bool) : Nat :=
  new_width * src_height / src_width * (if dpi_600 then 2 else 1)

/-- Modelled from the spec: rounding the rational a / b to the nearest
integer (halves away from zero), the height formula the spec claims. -/
def round_nearest (a b : Nat) : Nat :=
  (2 * a + b) / (2 * b)

/-! ### Print orchestration (image.rs lines 168-214)

print_lines talks to the device through PrinterCommander: send_command
writes the command's bytes and read_status reads a 32-byte reply.  The
device is modelled by an oracle giving the outcome of each successive
write (indexed by its position) and of each successive status read; the
run state records the byte sequences successfully written, in order.
Each `?` in the Rust code propagates the failure immediately, which the
embedding models by an Except whose error carries the state reached. -/

/-- Settings, src/brother_ql/src/lib.rs lines 5-10. -/
structure Settings where
  dpi_600 : Bool
  auto_cut : Bool
  dithering : Bool
deriving DecidableEq

/-- Device oracle: outcome of the n-th send_command and of the n-th
read_status call. -/
structure IOOracle where
  sendOk : Nat → Bool
  readRes : Nat → Option PrinterStatus

/-- State of a print_lines run: log of byte sequences written so far and
counts of the send / read calls already made. -/
structure PrintRun where
  log : List (List Nat)
  nsend : Nat
  nread : Nat
deriving DecidableEq

/-- Initial run state. -/
def initRun : PrintRun :=
  { log := [], nsend := 0, nread := 0 }

/-- PrinterCommander::send_command (driver.rs lines 297-299): writes the
command's encoding, or fails. -/
def send_command (o : IOOracle) (c : PrinterCommand) (s : PrintRun) :
    Except PrintRun PrintRun :=
  if o.sendOk s.nsend then
    Except.ok { log := s.log ++ [c.to_bytes], nsend := s.nsend + 1, nread := s.nread }
  else
    Except.error { s with nsend := s.nsend + 1 }

/-- PrinterCommander::read_status as used by print_lines: returns the
decoded status, or fails. -/
def read_status_step (o : IOOracle) (s : PrintRun) :
    Except PrintRun (PrinterStatus × PrintRun) :=
  match o.readRes s.nread with
  | some st => Except.ok (st, { s with nread := s.nread + 1 })
  | none => Except.error { s with nread := s.nread + 1 }

/-- A status read whose value is only logged (the three trailing
`trace!(.. read_status()?)` calls). -/
def read_status_drop (o : IOOracle) (s : PrintRun) : Except PrintRun PrintRun :=
  match read_status_step o s with
  | Except.ok (_, s1) => Except.ok s1
  | Except.error s1 => Except.error s1

/-- Sequencing of two fallible steps: Rust's `?` operator. -/
def pseq (m : Except PrintRun PrintRun) (f : PrintRun → Except PrintRun PrintRun) :
    Except PrintRun PrintRun :=
  match m with
  | Except.ok s => f s
  | Except.error s => Except.error s

/-- The `for line in lines` loop of print_lines (image.rs lines 203-205). -/
def send_raster_lines (o : IOOracle) (lines : List (List Nat)) (s : PrintRun) :
    Except PrintRun PrintRun :=
  match lines with
  | [] => Except.ok s
  | l :: rest =>
      pseq (send_command o (PrinterCommand.RasterGraphicsTransfer l) s)
        (send_raster_lines o rest)

/-- print_lines, image.rs lines 168-214: the fixed linear command
sequence.  `lines.len() as i32` becomes `Int.ofNat lines.length`. -/
def print_lines (o : IOOracle) (lines : List (List Nat)) (settings : Settings) :
    Except PrintRun PrintRun :=
  pseq (send_command o PrinterCommand.Reset initRun) fun s1 =>
  pseq (send_command o PrinterCommand.Initialize s1) fun s2 =>
  pseq (send_command o PrinterCommand.StatusInfoRequest s2) fun s3 =>
  match read_status_step o s3 with
  | Except.error s4 => Except.error s4
  | Except.ok (status, s4) =>
  pseq (send_command o (PrinterCommand.SetCommandMode PrinterCommandMode.Raster) s4) fun s5 =>
  pseq (send_command o (PrinterCommand.SetPrintInformation status (Int.ofNat lines.length)) s5) fun s6 =>
  pseq (send_command o (PrinterCommand.SetExpandedMode
    { cut_at_end := settings.auto_cut,
      high_resolution_printing := settings.dpi_600 }) s6) fun s7 =>
  pseq (send_command o (PrinterCommand.SetMode { auto_cut := settings.auto_cut }) s7) fun s8 =>
  -- this is needed for the auto cut
  pseq (send_command o (PrinterCommand.SetPageNumber 1) s8) fun s9 =>
  pseq (send_command o (PrinterCommand.SetMarginAmount 0) s9) fun s10 =>
  pseq (send_raster_lines o lines s10) fun s11 =>
  pseq (send_command o PrinterCommand.PrintWithFeeding s11) fun s12 =>
  pseq (read_status_drop o s12) fun s13 =>
  pseq (read_status_drop o s13) fun s14 =>
  pseq (read_status_drop o s14) fun s15 =>
  Except.ok s15

/-- Fallback status for stating theorems about the status value consumed by
print_lines when the read never happened. -/
def default_status : PrinterStatus :=
  mkStatus 0 0

/-- The encodings print_lines writes on a fully successful run, given the
status decoded from the first read. -/
def full_sequence (status : PrinterStatus) (lines : List (List Nat))
    (settings : Settings) : List (List Nat) :=
  [PrinterCommand.Reset.to_bytes,
   PrinterCommand.Initialize.to_bytes,
   PrinterCommand.StatusInfoRequest.to_bytes,
   (PrinterCommand.SetCommandMode PrinterCommandMode.Raster).to_bytes,
   (PrinterCommand.SetPrintInformation status (Int.ofNat lines.length)).to_bytes,
   (PrinterCommand.SetExpandedMode
     { cut_at_end := settings.auto_cut,
       high_resolution_printing := settings.dpi_600 }).to_bytes,
   (PrinterCommand.SetMode { auto_cut := settings.auto_cut }).to_bytes,
   (PrinterCommand.SetPageNumber 1).to_bytes,
   (PrinterCommand.SetMarginAmount 0).to_bytes]
  ++ lines.map (fun l => (PrinterCommand.RasterGraphicsTransfer l).to_bytes)
  ++ [PrinterCommand.PrintWithFeeding.to_bytes]

/-! ### Concrete fixtures used by counterexamples and witnesses -/

/-- A 32-byte status reply with valid header and enum codes whose byte 8 is
0x08, a bit outside every ErrorInformation1 mask. -/
def c3_reply : List Nat :=
  [0x80, 0x20, 0, 0, 0, 0, 0, 0,
   0x08, 0, 62, 0x0A, 0, 0, 0, 0,
   0, 0, 0x00, 0x00, 0, 0, 0, 0,
   0, 0, 0, 0, 0, 0, 0, 0]

/-- The status that read_status decodes from c3_reply. -/
def c3_status : PrinterStatus where
  media_width := 62
  media_length := 0
  media_type := MediaType.Continuous
  error1 := ErrorInformation1.from_bits 0x08
  error2 := ErrorInformation2.from_bits 0
  status_type := StatusType.ReplyToStatusRequest
  phase_state := PhaseState.Waiting

/-- A status for 62 mm endless tape. -/
def sample_status : PrinterStatus :=
  mkStatus 62 0

/-- An oracle for a device on which every write and every status read
succeeds, always replying with sample_status. -/
def sample_oracle : IOOracle where
  sendOk := fun _ => true
  readRes := fun _ => some sample_status

/-- One blank raster line. -/
def sample_line : List Nat :=
  List.replicate 90 0

/-- The settings the bot uses. -/
def sample_settings : Settings where
  dpi_600 := false
  auto_cut := true
  dithering := true

/-! ## Theorems -/

/-- C2: PrinterCommand::to_bytes encodes each variant to exactly the byte
sequence given in the spec: Initialize to 1B 40; SetPageNumber(5) to
1B 69 41 05; SetMarginAmount(256) to 1B 69 64 00 01 (little-endian);
RasterGraphicsTransfer of a 90-byte all-zero line to 67 00 5A followed by
90 zero bytes (93 bytes total); and SetPrintInformation(status, lineCount)
to 1B 69 7A, the fixed flags byte 0xCE, the status's mediaType, mediaWidth,
mediaLength, lineCount as 4 little-endian bytes, then 01 00 (13 bytes). -/
theorem C2_command_encoding :
    PrinterCommand.Initialize.to_bytes = [0x1b, 0x40] ∧
    (PrinterCommand.SetPageNumber 5).to_bytes = [0x1b, 0x69, 0x41, 0x05] ∧
    (PrinterCommand.SetMarginAmount 256).to_bytes = [0x1b, 0x69, 0x64, 0x00, 0x01] ∧
    (PrinterCommand.RasterGraphicsTransfer (List.replicate 90 0)).to_bytes
      = [0x67, 0x00, 0x5A] ++ List.replicate 90 0 ∧
    (PrinterCommand.RasterGraphicsTransfer (List.replicate 90 0)).to_bytes.length = 93 ∧
    ∀ (status : PrinterStatus) (line_count : Int),
      (PrinterCommand.SetPrintInformation status line_count).to_bytes
        = [0x1b, 0x69, 0x7a, 0xCE, status.media_type.code, status.media_width,
           status.media_length] ++ i32_le_bytes line_count ++ [0x01, 0x00] ∧
      (PrinterCommand.SetPrintInformation status line_count).to_bytes.length = 13 := by
  refine ⟨rfl, rfl, rfl, by decide, by decide, ?_⟩
  intro status line_count
  constructor
  · rfl
  · simp [PrinterCommand.to_bytes, i32_le_bytes]

/-- Witness for C2: the SetPrintInformation equations at a concrete status
and line count. -/
theorem C2_command_encoding_witness :
    (PrinterCommand.SetPrintInformation c3_status 5).to_bytes
      = [0x1b, 0x69, 0x7a, 0xCE, c3_status.media_type.code, c3_status.media_width,
         c3_status.media_length] ++ i32_le_bytes 5 ++ [0x01, 0x00] ∧
    (PrinterCommand.SetPrintInformation c3_status 5).to_bytes.length = 13 :=
  C2_command_encoding.2.2.2.2.2 c3_status 5

/-- C5: pixel_width maps media geometry exactly per the fixed table on the
six sampled pairs, returns none for every pair absent from the table
(e.g. (99,99)), and when it returns none the raster pipeline's target
width falls back to 720 dots. -/
theorem C5_pixel_width_table :
    ((mkStatus 12 0).pixel_width = some 113 ∧
     (mkStatus 29 0).pixel_width = some 336 ∧
     (mkStatus 62 0).pixel_width = some 720 ∧
     (mkStatus 17 54).pixel_width = some 201 ∧
     (mkStatus 24 24).pixel_width = some 242 ∧
     (mkStatus 58 58).pixel_width = some 637 ∧
     (mkStatus 99 99).pixel_width = none) ∧
    (∀ s : PrinterStatus,
      (s.media_width, s.media_length) ∉ pixel_width_domain → s.pixel_width = none) ∧
    (∀ s : PrinterStatus, s.pixel_width = none → render_target_width s = 720) := by
  refine ⟨by decide, ?_, ?_⟩
  · intro s h
    simp only [pixel_width_domain, List.mem_cons, List.not_mem_nil, or_false,
      not_or] at h
    obtain ⟨n1, n2, n3, n4, n5, n6, n7, n8, n9, n10, n11, n12, n13, n14, n15,
      n16, n17, n18, n19, n20, n21, n22, n23, n24, n25, n26⟩ := h
    unfold PrinterStatus.pixel_width
    dsimp only
    rw [if_neg n1, if_neg n2, if_neg n3, if_neg n4, if_neg n5, if_neg n6,
      if_neg n7, if_neg n8, if_neg n9, if_neg n10, if_neg n11, if_neg n12,
      if_neg n13, if_neg n14, if_neg n15, if_neg n16, if_neg n17, if_neg n18,
      if_neg n19, if_neg n20, if_neg n21, if_neg n22, if_neg n23, if_neg n24,
      if_neg n25, if_neg n26]
  · intro s h
    unfold render_target_width
    rw [h]
    rfl

/-- Witness for C5: the non-table pair (99,99) and the 720-dot fallback. -/
theorem C5_pixel_width_table_witness :
    (mkStatus 99 99).pixel_width = none ∧ render_target_width (mkStatus 99 99) = 720 :=
  ⟨C5_pixel_width_table.2.1 (mkStatus 99 99) (by decide),
   C5_pixel_width_table.2.2 (mkStatus 99 99)
     (C5_pixel_width_table.2.1 (mkStatus 99 99) (by decide))⟩

/-- A media type byte outside the enumerated set fails to decode. -/
theorem decode_media_type_none (b : Nat) (h : b ≠ 0x00 ∧ b ≠ 0x0A ∧ b ≠ 0x0B) :
    decode_media_type b = none := by
  unfold decode_media_type
  rw [if_neg h.1, if_neg h.2.1, if_neg h.2.2]

/-- A status type byte outside the enumerated set fails to decode. -/
theorem decode_status_type_none (b : Nat)
    (h : b ≠ 0x00 ∧ b ≠ 0x01 ∧ b ≠ 0x02 ∧ b ≠ 0x05 ∧ b ≠ 0x06) :
    decode_status_type b = none := by
  unfold decode_status_type
  rw [if_neg h.1, if_neg h.2.1, if_neg h.2.2.1, if_neg h.2.2.2.1, if_neg h.2.2.2.2]

/-- A phase state byte outside the enumerated set fails to decode. -/
theorem decode_phase_state_none (b : Nat) (h : b ≠ 0x00 ∧ b ≠ 0x01) :
    decode_phase_state b = none := by
  unfold decode_phase_state
  rw [if_neg h.1, if_neg h.2]

/-- C4: any 32-byte reply whose header bytes differ from 80 20, or whose
media type / status type / phase state byte is outside its enumerated set,
fails to decode: read_status returns none, never a status built from a
default value. -/
theorem C4_read_status_rejects (res : List Nat) (hlen : res.length = 32)
    (h : res.getD 0 0 ≠ 0x80 ∨ res.getD 1 0 ≠ 0x20 ∨
         (res.getD 11 0 ≠ 0x00 ∧ res.getD 11 0 ≠ 0x0A ∧ res.getD 11 0 ≠ 0x0B) ∨
         (res.getD 18 0 ≠ 0x00 ∧ res.getD 18 0 ≠ 0x01 ∧ res.getD 18 0 ≠ 0x02 ∧
          res.getD 18 0 ≠ 0x05 ∧ res.getD 18 0 ≠ 0x06) ∨
         (res.getD 19 0 ≠ 0x00 ∧ res.getD 19 0 ≠ 0x01)) :
    read_status res = none := by
  unfold read_status
  split_ifs with hA hB
  · rcases h with h | h | h | h | h
    · exact absurd hA h
    · exact absurd hB h
    · have hm := decode_media_type_none _ h
      cases hs : decode_status_type (res.getD 18 0) <;>
        cases hp : decode_phase_state (res.getD 19 0) <;>
          rw [hm]
    · have hs := decode_status_type_none _ h
      cases hm : decode_media_type (res.getD 11 0) <;>
        cases hp : decode_phase_state (res.getD 19 0) <;>
          rw [hs]
    · have hp := decode_phase_state_none _ h
      cases hm : decode_media_type (res.getD 11 0) <;>
        cases hs : decode_status_type (res.getD 18 0) <;>
          rw [hp]
  · rfl
  · rfl

/-- Witness for C4: an all-zero reply (wrong header) fails to decode. -/
theorem C4_read_status_rejects_witness :
    read_status (List.replicate 32 0) = none :=
  C4_read_status_rejects (List.replicate 32 0) (by decide) (Or.inl (by decide))

/-- Re-encoding ErrorInformation1 after decoding keeps exactly the bits
under the five masks (0x97 is their union). -/
theorem to_bits_from_bits_1 :
    ∀ b < 256, (ErrorInformation1.from_bits b).to_bits = b &&& 0x97 := by decide

/-- Re-encoding ErrorInformation2 after decoding keeps exactly the bits
under the four masks (0xD4 is their union). -/
theorem to_bits_from_bits_2 :
    ∀ b < 256, (ErrorInformation2.from_bits b).to_bits = b &&& 0xD4 := by decide

/-- C3 counterexample: c3_reply is a 32-byte reply with valid header and
enumerated codes whose byte 8 is 0x08, a bit outside every
ErrorInformation1 mask; decoding succeeds but re-encoding the decoded
error-flag set 1 yields 0x00, not the original byte 0x08 — so re-encoding
the decoded fields does not reproduce the original field bytes exactly. -/
theorem C3_counterexample :
    c3_reply.length = 32 ∧
    c3_reply.getD 0 0 = 0x80 ∧ c3_reply.getD 1 0 = 0x20 ∧
    c3_reply.getD 11 0 = 0x0A ∧ c3_reply.getD 18 0 = 0x00 ∧
    c3_reply.getD 19 0 = 0x00 ∧ c3_reply.getD 8 0 = 0x08 ∧
    read_status c3_reply = some c3_status ∧
    c3_status.error1.to_bits = 0x00 := by decide

/-- C3 as amended: for every 32-byte reply of bytes whose bytes 0 and 1 are
0x80, 0x20 and whose bytes 11, 18, 19 carry enumerated codes, read_status
returns a PrinterStatus whose fields are exactly the stated functions of
the input bytes (media_width = byte 10, media_length = byte 17, the three
enums decode bytes 11/18/19, the nine error flags are the mask tests on
bytes 8 and 9); re-encoding reproduces bytes 10, 11, 17, 18, 19 exactly,
and bytes 8 and 9 masked to the decoded flag positions (0x97 and 0xD4). -/
theorem C3_read_status_field_decode (res : List Nat) (hlen : res.length = 32)
    (hbytes : ∀ b ∈ res, b < 256)
    (h0 : res.getD 0 0 = 0x80) (h1 : res.getD 1 0 = 0x20)
    (h11 : res.getD 11 0 = 0x00 ∨ res.getD 11 0 = 0x0A ∨ res.getD 11 0 = 0x0B)
    (h18 : res.getD 18 0 = 0x00 ∨ res.getD 18 0 = 0x01 ∨ res.getD 18 0 = 0x02 ∨
           res.getD 18 0 = 0x05 ∨ res.getD 18 0 = 0x06)
    (h19 : res.getD 19 0 = 0x00 ∨ res.getD 19 0 = 0x01) :
    ∃ st, read_status res = some st ∧
      st.media_width = res.getD 10 0 ∧
      st.media_length = res.getD 17 0 ∧
      st.media_type.code = res.getD 11 0 ∧
      st.status_type.code = res.getD 18 0 ∧
      st.phase_state.code = res.getD 19 0 ∧
      st.error1.no_media_when_printing = (res.getD 8 0 &&& 0x01 != 0) ∧
      st.error1.end_of_media = (res.getD 8 0 &&& 0x02 != 0) ∧
      st.error1.tape_cutter_jam = (res.getD 8 0 &&& 0x04 != 0) ∧
      st.error1.main_unit_in_use = (res.getD 8 0 &&& 0x10 != 0) ∧
      st.error1.fan_doesnt_work = (res.getD 8 0 &&& 0x80 != 0) ∧
      st.error2.transmission_error = (res.getD 9 0 &&& 0x04 != 0) ∧
      st.error2.cover_opened_while_printing = (res.getD 9 0 &&& 0x10 != 0) ∧
      st.error2.cannot_feed = (res.getD 9 0 &&& 0x40 != 0) ∧
      st.error2.system_error = (res.getD 9 0 &&& 0x80 != 0) ∧
      st.error1.to_bits = res.getD 8 0 &&& 0x97 ∧
      st.error2.to_bits = res.getD 9 0 &&& 0xD4 := by
  have hmt : ∃ mt : MediaType,
      decode_media_type (res.getD 11 0) = some mt ∧ mt.code = res.getD 11 0 := by
    rcases h11 with h | h | h <;> rw [h] <;> exact ⟨_, rfl, rfl⟩
  have hst : ∃ stt : StatusType,
      decode_status_type (res.getD 18 0) = some stt ∧ stt.code = res.getD 18 0 := by
    rcases h18 with h | h | h | h | h <;> rw [h] <;> exact ⟨_, rfl, rfl⟩
  have hph : ∃ ph : PhaseState,
      decode_phase_state (res.getD 19 0) = some ph ∧ ph.code = res.getD 19 0 := by
    rcases h19 with h | h <;> rw [h] <;> exact ⟨_, rfl, rfl⟩
  obtain ⟨mt, hmt1, hmt2⟩ := hmt
  obtain ⟨stt, hst1, hst2⟩ := hst
  obtain ⟨ph, hph1, hph2⟩ := hph
  have h8 : res.getD 8 0 < 256 := by
    refine hbytes _ ?_
    rw [List.getD_eq_getElem res 0 (by omega)]
    exact List.getElem_mem _
  have h9 : res.getD 9 0 < 256 := by
    refine hbytes _ ?_
    rw [List.getD_eq_getElem res 0 (by omega)]
    exact List.getElem_mem _
  refine ⟨{ media_width := res.getD 10 0, media_type := mt,
            media_length := res.getD 17 0,
            error1 := ErrorInformation1.from_bits (res.getD 8 0),
            error2 := ErrorInformation2.from_bits (res.getD 9 0),
            status_type := stt, phase_state := ph }, ?_, rfl, rfl, hmt2, hst2,
          hph2, rfl, rfl, rfl, rfl, rfl, rfl, rfl, rfl, rfl,
          to_bits_from_bits_1 _ h8, to_bits_from_bits_2 _ h9⟩
  unfold read_status
  rw [if_pos h0, if_pos h1, hmt1, hst1, hph1]

/-- Witness for C3's amended theorem at the concrete reply c3_reply. -/
theorem C3_read_status_field_decode_witness :
    ∃ st, read_status c3_reply = some st ∧
      st.media_width = 62 ∧
      st.media_length = 0 ∧
      st.media_type.code = 0x0A ∧
      st.status_type.code = 0x00 ∧
      st.phase_state.code = 0x00 ∧
      st.error1.no_media_when_printing = false ∧
      st.error1.end_of_media = false ∧
      st.error1.tape_cutter_jam = false ∧
      st.error1.main_unit_in_use = false ∧
      st.error1.fan_doesnt_work = false ∧
      st.error2.transmission_error = false ∧
      st.error2.cover_opened_while_printing = false ∧
      st.error2.cannot_feed = false ∧
      st.error2.system_error = false ∧
      st.error1.to_bits = 0x00 ∧
      st.error2.to_bits = 0x00 :=
  C3_read_status_field_decode c3_reply (by decide) (by decide) (by decide)
    (by decide) (Or.inr (Or.inl (by decide))) (Or.inl (by decide))
    (Or.inl (by decide))

/-- C7 counterexample: a device failing exactly the first 10 attempts.
After 10 consecutive failed attempts Printer::read does NOT fail with a
Timeout error: it makes an 11th attempt, which here succeeds and returns
the buffer — refuting the claim.  The second conjunct shows the Timeout
only fires after 11 consecutive failures (a device succeeding from the
12th attempt on still gets the Timeout, i.e. no 12th attempt is made). -/
theorem C7_counterexample :
    printer_read (fun n => decide (n = 10)) (fun _ _ => 0) 32
      = some (List.replicate 32 0) ∧
    printer_read (fun n => decide (n = 11)) (fun _ _ => 0) 32 = none := by
  constructor <;> decide

/-- If every attempt covered by the fuel fails, the retry loop times out. -/
theorem read_loop_none (success : Nat → Bool) (data : Nat → Nat → Nat)
    (length : Nat) :
    ∀ (fuel attempt : Nat), (∀ k, k < fuel → success (attempt + k) = false) →
      read_loop success data length attempt fuel = none := by
  intro fuel
  induction fuel with
  | zero => intro attempt _; rfl
  | succ n ih =>
      intro attempt h
      unfold read_loop
      have h0 : success attempt = false := by
        have := h 0 (Nat.succ_pos n)
        rwa [Nat.add_zero] at this
      rw [h0, if_neg (by simp)]
      refine ih (attempt + 1) ?_
      intro k hk
      have := h (k + 1) (by omega)
      rwa [show attempt + (k + 1) = attempt + 1 + k by omega] at this

/-- A successful retry-loop read returns a buffer of exactly the requested
length. -/
theorem read_loop_length (success : Nat → Bool) (data : Nat → Nat → Nat)
    (length : Nat) :
    ∀ (fuel attempt : Nat) (buf : List Nat),
      read_loop success data length attempt fuel = some buf →
      buf.length = length := by
  intro fuel
  induction fuel with
  | zero => intro attempt buf h; exact absurd h (by simp [read_loop])
  | succ n ih =>
      intro attempt buf h
      unfold read_loop at h
      by_cases hs : success attempt
      · rw [if_pos hs] at h
        obtain ⟨rfl⟩ := Option.some_inj.mp h.symm
        simp
      · rw [if_neg hs] at h
        exact ih (attempt + 1) buf h

/-- The retry loop never looks at an attempt index beyond its fuel. -/
theorem read_loop_congr (s s' : Nat → Bool) (d d' : Nat → Nat → Nat)
    (length : Nat) :
    ∀ (fuel attempt : Nat),
      (∀ k, k < fuel → s (attempt + k) = s' (attempt + k) ∧
        d (attempt + k) = d' (attempt + k)) →
      read_loop s d length attempt fuel = read_loop s' d' length attempt fuel := by
  intro fuel
  induction fuel with
  | zero => intro attempt _; rfl
  | succ n ih =>
      intro attempt h
      unfold read_loop
      have h0 := h 0 (Nat.succ_pos n)
      rw [Nat.add_zero] at h0
      rw [h0.1, h0.2]
      by_cases hs : s' attempt
      · rw [if_pos hs, if_pos hs]
      · rw [if_neg hs, if_neg hs]
        refine ih (attempt + 1) ?_
        intro k hk
        have := h (k + 1) (by omega)
        rwa [show attempt + (k + 1) = attempt + 1 + k by omega] at this

/-- C7 as amended: Printer::read returns a buffer of exactly `length` bytes
on success and otherwise an error — never a short read; it retries an
exact-length read with a 10 ms sleep after each failure, and after 11
consecutive failed attempts it fails with a Timeout error (no 12th attempt
is made: the result never depends on attempts beyond the 11th; the sleep
duration itself is outside this model). -/
theorem C7_read_retry :
    (∀ (success : Nat → Bool) (data : Nat → Nat → Nat) (length : Nat),
      (∀ n, n < 11 → success n = false) →
      printer_read success data length = none) ∧
    (∀ (success : Nat → Bool) (data : Nat → Nat → Nat) (length : Nat)
       (buf : List Nat),
      printer_read success data length = some buf → buf.length = length) ∧
    (∀ (s s' : Nat → Bool) (d d' : Nat → Nat → Nat) (length : Nat),
      (∀ n, n < 11 → s n = s' n ∧ d n = d' n) →
      printer_read s d length = printer_read s' d' length) := by
  refine ⟨?_, ?_, ?_⟩
  · intro success data length h
    refine read_loop_none success data length 11 0 ?_
    intro k hk
    have := h k hk
    rwa [Nat.zero_add]
  · intro success data length buf h
    exact read_loop_length success data length 11 0 buf h
  · intro s s' d d' length h
    refine read_loop_congr s s' d d' length 11 0 ?_
    intro k hk
    have := h k hk
    rwa [Nat.zero_add]

/-- Witness for C7's amended theorem: an always-failing device times out,
and a first-attempt success returns a 32-byte buffer. -/
theorem C7_read_retry_witness :
    printer_read (fun _ => false) (fun _ _ => 7) 32 = none ∧
    ((List.range 32).map ((fun _ _ => 7 : Nat → Nat → Nat) 0)).length = 32 :=
  ⟨C7_read_retry.1 (fun _ => false) (fun _ _ => 7) 32 (fun _ _ => rfl),
   C7_read_retry.2.1 (fun _ => true) (fun _ _ => 7) 32 _ rfl⟩

/-- C8 counterexample: at target width 7 and a 1x2 source image,
render_image computes target height 7 * 1 / 2 = 3 (truncating u32
division), while rounding 3.5 to the nearest integer gives 4 — so the
height formula truncates rather than rounds. -/
theorem C8_counterexample :
    new_height 7 1 2 false = 3 ∧ round_nearest (7 * 1) 2 = 4 ∧
    new_height 7 1 2 false ≠ round_nearest (7 * 1) 2 := by decide

/-- C8 as amended: in render_image's resize stage the target height is the
TRUNCATED quotient of w * sourceHeight by sourceWidth (the mathematical
floor, characterized by the two inequalities), doubled when 600-dpi mode
is enabled. -/
theorem C8_resize_height (w sh sw : Nat) (d : Bool) (hsw : 0 < sw) :
    new_height w sh sw d = w * sh / sw * (if d then 2 else 1) ∧
    (w * sh / sw) * sw ≤ w * sh ∧
    w * sh < (w * sh / sw + 1) * sw := by
  refine ⟨rfl, Nat.div_mul_le_self _ _, ?_⟩
  have h1 := Nat.div_add_mod (w * sh) sw
  have h2 := Nat.mod_lt (w * sh) hsw
  nlinarith [h1, h2]

/-- Witness for C8's amended theorem at width 7, source 1x2, 600 dpi off. -/
theorem C8_resize_height_witness :
    new_height 7 1 2 false = 7 * 1 / 2 * (if false then 2 else 1) ∧
    (7 * 1 / 2) * 2 ≤ 7 * 1 ∧
    7 * 1 < (7 * 1 / 2 + 1) * 2 :=
  C8_resize_height 7 1 2 false (by decide)

/-- One packing step never changes the buffer length. -/
theorem pack_step_length (img : Nat → Nat → Nat) (p y : Nat) (line : List Nat)
    (x : Nat) : (pack_step img p y line x).length = line.length := by
  unfold pack_step set_line_bit
  dsimp only
  split_ifs <;> simp

/-- Folding packing steps never changes the buffer length. -/
theorem foldl_pack_length (img : Nat → Nat → Nat) (p y : Nat) :
    ∀ (l : List Nat) (line : List Nat),
      (l.foldl (pack_step img p y) line).length = line.length := by
  intro l
  induction l with
  | nil => intro line; rfl
  | cons a t ih =>
      intro line
      rw [List.foldl_cons, ih, pack_step_length]

/-- Each packed row is a 90-byte buffer. -/
theorem pack_row_length (img : Nat → Nat → Nat) (p w y : Nat) :
    (pack_row img p w y).length = 90 := by
  unfold pack_row
  rw [foldl_pack_length]
  simp

/-- Reading any position of an all-zero buffer gives 0. -/
theorem getD_replicate_zero (n i : Nat) : (List.replicate n 0).getD i 0 = 0 := by
  rw [List.getD_eq_getElem?_getD, List.getElem?_replicate]
  split <;> rfl

/-- Effect of `line[89 - byte] |= 1 << bit` on position j of a 90-byte
buffer. -/
theorem getD_set_line_bit (line : List Nat) (byte bit j : Nat)
    (hlen : line.length = 90) :
    (set_line_bit line byte bit).getD j 0 =
      if 89 - byte = j then line.getD j 0 ||| 1 <<< bit else line.getD j 0 := by
  unfold set_line_bit
  by_cases hj : 89 - byte = j
  · rw [if_pos hj, ← hj]
    rw [List.getD_eq_getElem?_getD, List.getElem?_set_self (by omega)]
    rfl
  · rw [if_neg hj]
    rw [List.getD_eq_getElem?_getD, List.getElem?_set_ne hj,
      ← List.getD_eq_getElem?_getD]

/-- Bit k of the mask `1 << b`. -/
theorem testBit_one_shiftLeft (b k : Nat) : (1 <<< b).testBit k = decide (b = k) := by
  rw [Nat.shiftLeft_eq, one_mul]
  exact Nat.testBit_two_pow

/-- Unfolding one iteration of the packing fold. -/
theorem pack_row_succ (img : Nat → Nat → Nat) (p y n : Nat) :
    pack_row img p (n + 1) y = pack_step img p y (pack_row img p n y) n := by
  unfold pack_row
  rw [List.range_succ, List.foldl_append, List.foldl_cons, List.foldl_nil]

/-- Characterization of img_to_lines's bit-packing: provided the padded dot
positions stay below 720, bit k of byte j of a packed row is set exactly
when some black pixel x of that row has `j = 89 - (x + padding) / 8` and
`k = (x + padding) % 8`. -/
theorem pack_row_testBit (img : Nat → Nat → Nat) (p y : Nat) :
    ∀ (n : Nat), n + p ≤ 720 → ∀ j, j < 90 → ∀ k, k < 8 →
      (((pack_row img p n y).getD j 0).testBit k ↔
        ∃ x, x < n ∧ img x y = 0 ∧ j = 89 - (x + p) / 8 ∧ k = (x + p) % 8) := by
  intro n
  induction n with
  | zero =>
      intro _ j _ k _
      unfold pack_row
      rw [List.range_zero, List.foldl_nil, getD_replicate_zero]
      simp [Nat.zero_testBit]
  | succ n ih =>
      intro hn j hj k hk
      have hn' : n + p ≤ 720 := by omega
      rw [pack_row_succ]
      unfold pack_step
      dsimp only
      by_cases himg : img n y = 0
      · rw [if_pos himg,
          getD_set_line_bit _ _ _ _ (pack_row_length img p n y)]
        by_cases hjb : 89 - (n + p) / 8 = j
        · rw [if_pos hjb, Nat.testBit_or, testBit_one_shiftLeft]
          simp only [Bool.or_eq_true, decide_eq_true_eq]
          rw [ih hn' j hj k hk]
          constructor
          · rintro (⟨x, hx, hb, hj', hk'⟩ | h)
            · exact ⟨x, by omega, hb, hj', hk'⟩
            · exact ⟨n, by omega, himg, hjb.symm, h.symm⟩
          · rintro ⟨x, hx, hb, hj', hk'⟩
            rcases Nat.lt_succ_iff_lt_or_eq.mp hx with hx' | rfl
            · exact Or.inl ⟨x, hx', hb, hj', hk'⟩
            · exact Or.inr hk'.symm
        · rw [if_neg hjb, ih hn' j hj k hk]
          constructor
          · rintro ⟨x, hx, hb, hj', hk'⟩
            exact ⟨x, by omega, hb, hj', hk'⟩
          · rintro ⟨x, hx, hb, hj', hk'⟩
            rcases Nat.lt_succ_iff_lt_or_eq.mp hx with hx' | rfl
            · exact ⟨x, hx', hb, hj', hk'⟩
            · exact absurd hj'.symm hjb
      · rw [if_neg himg, ih hn' j hj k hk]
        constructor
        · rintro ⟨x, hx, hb, hj', hk'⟩
          exact ⟨x, by omega, hb, hj', hk'⟩
        · rintro ⟨x, hx, hb, hj', hk'⟩
          rcases Nat.lt_succ_iff_lt_or_eq.mp hx with hx' | rfl
          · exact ⟨x, hx', hb, hj', hk'⟩
          · exact absurd hb himg

/-- C1: for every output row of the rendered image, img_to_lines produces a
90-byte line in which dot index x (with the left padding offset
720 - imageWidth added when the image is narrower than 720 dots) maps to
byte index 89 - (x / 8), bit x % 8; a black pixel (luminance 0) sets the
bit and a white pixel leaves it clear.  In particular (in the no-padding
copy of img_to_lines of src/src/main.rs) a single-row 8-pixel all-black
image with zero padding packs to a line with byte 89 = 0xFF and bytes
0-88 = 0x00, and an 8-pixel all-white image packs to 90 zero bytes. -/
theorem C1_img_to_lines_bit_packing :
    (∀ (img : Nat → Nat → Nat) (w h : Nat), w ≤ 720 →
      ∃ lines, img_to_lines img w h = some lines ∧ lines.length = h ∧
        ∀ y, y < h →
          (lines.getD y []).length = 90 ∧
          ∀ j, j < 90 → ∀ k, k < 8 →
            (((lines.getD y []).getD j 0).testBit k ↔
              ∃ x, x < w ∧ img x y = 0 ∧
                j = 89 - (x + (720 - w)) / 8 ∧ k = (x + (720 - w)) % 8)) ∧
    img_to_lines_main (fun _ _ => 0) 8 1
      = some [List.replicate 89 0 ++ [0xFF]] ∧
    img_to_lines_main (fun _ _ => 255) 8 1 = some [List.replicate 90 0] := by
  refine ⟨?_, by decide, by decide⟩
  intro img w h hw
  refine ⟨(List.range h).map (fun y => pack_row img (720 - w) w y), ?_, by simp, ?_⟩
  · unfold img_to_lines
    rw [if_neg (by omega)]
  · intro y hy
    have hget : ((List.range h).map (fun y => pack_row img (720 - w) w y)).getD y []
        = pack_row img (720 - w) w y := by
      rw [List.getD_eq_getElem _ _ (by simp [hy])]
      simp
    rw [hget]
    refine ⟨pack_row_length img (720 - w) w y, ?_⟩
    intro j hj k hk
    exact pack_row_testBit img (720 - w) y w (by omega) j hj k hk

/-- Witness for C1: the packing characterization at a full-width all-black
single-row image. -/
theorem C1_img_to_lines_bit_packing_witness :
    ∃ lines, img_to_lines (fun _ _ => 0) 720 1 = some lines ∧ lines.length = 1 ∧
      ∀ y, y < 1 →
        (lines.getD y []).length = 90 ∧
        ∀ j, j < 90 → ∀ k, k < 8 →
          (((lines.getD y []).getD j 0).testBit k ↔
            ∃ x, x < 720 ∧ (fun _ _ => 0 : Nat → Nat → Nat) x y = 0 ∧
              j = 89 - (x + (720 - 720)) / 8 ∧ k = (x + (720 - 720)) % 8) :=
  C1_img_to_lines_bit_packing.1 (fun _ _ => 0) 720 1 (by decide)

/-- C10: img_to_lines is well-defined only under the precondition
image_width ≤ 720: pixel_width can report widths above 720 (102 mm and
104 mm tapes give 1188 and 1212) which render_image passes straight
through as the target width, while img_to_lines computes the padding as
the u32 subtraction 720 - image_width, which underflows for any such
width.  For every image no wider than 720 dots every produced line is a
valid 90-byte buffer; for any width above 720 the pipeline cannot produce
a line. -/
theorem C10_img_to_lines_width_precondition :
    ((mkStatus 102 0).pixel_width = some 1188 ∧
     (mkStatus 104 0).pixel_width = some 1212 ∧
     render_target_width (mkStatus 102 0) = 1188 ∧
     720 < render_target_width (mkStatus 102 0)) ∧
    (∀ (img : Nat → Nat → Nat) (w h : Nat), w ≤ 720 →
      ∃ lines, img_to_lines img w h = some lines ∧ lines.length = h ∧
        ∀ line ∈ lines, line.length = 90) ∧
    (∀ (img : Nat → Nat → Nat) (w h : Nat), 720 < w →
      img_to_lines img w h = none) := by
  refine ⟨by decide, ?_, ?_⟩
  · intro img w h hw
    refine ⟨(List.range h).map (fun y => pack_row img (720 - w) w y), ?_, by simp, ?_⟩
    · unfold img_to_lines
      rw [if_neg (by omega)]
    · intro line hline
      simp only [List.mem_map, List.mem_range] at hline
      obtain ⟨y, _, rfl⟩ := hline
      exact pack_row_length img (720 - w) w y
  · intro img w h hw
    unfold img_to_lines
    rw [if_pos hw]

/-- Witness for C10: both halves at width 720 (valid) and width 1188 (the
102 mm tape width, underflowing). -/
theorem C10_img_to_lines_width_precondition_witness :
    (∃ lines, img_to_lines (fun _ _ => 0) 720 2 = some lines ∧ lines.length = 2 ∧
      ∀ line ∈ lines, line.length = 90) ∧
    img_to_lines (fun _ _ => 0) 1188 2 = none :=
  ⟨C10_img_to_lines_width_precondition.2.1 (fun _ _ => 0) 720 2 (by decide),
   C10_img_to_lines_width_precondition.2.2 (fun _ _ => 0) 1188 2 (by decide)⟩

/-- A successful raster-transfer loop appends exactly the encodings of its
lines to the log, in order, and performs no status read. -/
theorem send_raster_lines_ok (o : IOOracle) :
    ∀ (lines : List (List Nat)) (s t : PrintRun),
      send_raster_lines o lines s = Except.ok t →
      t.log = s.log
          ++ lines.map (fun l => (PrinterCommand.RasterGraphicsTransfer l).to_bytes) ∧
      t.nread = s.nread := by
  intro lines
  induction lines with
  | nil =>
      intro s t h
      unfold send_raster_lines at h
      injection h with h
      subst h
      simp
  | cons l rest ih =>
      intro s t h
      unfold send_raster_lines pseq at h
      cases hs : send_command o (PrinterCommand.RasterGraphicsTransfer l) s with
      | error e => rw [hs] at h; cases h
      | ok s1 =>
          rw [hs] at h
          obtain ⟨hlog, hread⟩ := ih s1 t h
          unfold send_command at hs
          split_ifs at hs
          injection hs with hs
          subst hs
          constructor
          · rw [hlog]; simp
          · rw [hread]

/-- A failing raster-transfer loop leaves the log a prefix of the full list
of line encodings appended to the starting log. -/
theorem send_raster_lines_error (o : IOOracle) :
    ∀ (lines : List (List Nat)) (s e : PrintRun),
      send_raster_lines o lines s = Except.error e →
      ∃ rest, e.log ++ rest = s.log
          ++ lines.map (fun l => (PrinterCommand.RasterGraphicsTransfer l).to_bytes) := by
  intro lines
  induction lines with
  | nil => intro s e h; cases h
  | cons l rest ih =>
      intro s e h
      unfold send_raster_lines pseq at h
      cases hs : send_command o (PrinterCommand.RasterGraphicsTransfer l) s with
      | error e1 =>
          rw [hs] at h
          injection h with h
          subst h
          unfold send_command at hs
          split_ifs at hs
          injection hs with hs
          subst hs
          refine ⟨(PrinterCommand.RasterGraphicsTransfer l).to_bytes
            :: rest.map (fun r => (PrinterCommand.RasterGraphicsTransfer r).to_bytes), ?_⟩
          simp
      | ok s1 =>
          rw [hs] at h
          obtain ⟨r0, hr0⟩ := ih s1 e h
          unfold send_command at hs
          split_ifs at hs
          injection hs with hs
          subst hs
          refine ⟨r0, ?_⟩
          rw [hr0]
          simp

/-- Evaluation of print_lines against an arbitrary device oracle: either
every step succeeds and the log is exactly the full fixed command
sequence, or some step fails, print_lines returns that error immediately,
and the log is a prefix of the full sequence (no later command issued). -/
theorem print_lines_eval (o : IOOracle) (lines : List (List Nat))
    (settings : Settings) :
    (∃ t, print_lines o lines settings = Except.ok t ∧
      t.log = full_sequence ((o.readRes 0).getD default_status) lines settings) ∨
    (∃ e, print_lines o lines settings = Except.error e ∧
      ∃ rest, e.log ++ rest
        = full_sequence ((o.readRes 0).getD default_status) lines settings) := by
  by_cases h0 : o.sendOk 0 = true
  case neg =>
    right
    refine ⟨{ log := [], nsend := 1, nread := 0 }, ?_, ?_⟩
    · simp [print_lines, pseq, send_command, initRun, h0]
    · exact ⟨_, rfl⟩
  case pos =>
  by_cases h1 : o.sendOk 1 = true
  case neg =>
    right
    refine ⟨{ log := [PrinterCommand.Reset.to_bytes], nsend := 2, nread := 0 }, ?_, ?_⟩
    · simp [print_lines, pseq, send_command, initRun, h0, h1]
    · exact ⟨(full_sequence ((o.readRes 0).getD default_status) lines settings).drop 1,
        by simp [full_sequence]⟩
  case pos =>
  by_cases h2 : o.sendOk 2 = true
  case neg =>
    right
    refine ⟨{ log := [PrinterCommand.Reset.to_bytes, PrinterCommand.Initialize.to_bytes],
              nsend := 3, nread := 0 }, ?_, ?_⟩
    · simp [print_lines, pseq, send_command, initRun, h0, h1, h2]
    · exact ⟨(full_sequence ((o.readRes 0).getD default_status) lines settings).drop 2,
        by simp [full_sequence]⟩
  case pos =>
  cases hr0 : o.readRes 0 with
  | none =>
      right
      refine ⟨{ log := [PrinterCommand.Reset.to_bytes, PrinterCommand.Initialize.to_bytes,
                        PrinterCommand.StatusInfoRequest.to_bytes],
                nsend := 3, nread := 1 }, ?_, ?_⟩
      · simp [print_lines, pseq, send_command, read_status_step, initRun, h0, h1, h2, hr0]
      · exact ⟨(full_sequence default_status lines settings).drop 3,
          by simp [full_sequence]⟩
  | some stv =>
  by_cases h3 : o.sendOk 3 = true
  case neg =>
    right
    refine ⟨{ log := [PrinterCommand.Reset.to_bytes, PrinterCommand.Initialize.to_bytes,
                      PrinterCommand.StatusInfoRequest.to_bytes],
              nsend := 4, nread := 1 }, ?_, ?_⟩
    · simp [print_lines, pseq, send_command, read_status_step, initRun, h0, h1, h2, hr0, h3]
    · exact ⟨(full_sequence stv lines settings).drop 3,
        by simp [full_sequence]⟩
  case pos =>
  by_cases h4 : o.sendOk 4 = true
  case neg =>
    right
    refine ⟨{ log := [PrinterCommand.Reset.to_bytes, PrinterCommand.Initialize.to_bytes,
                      PrinterCommand.StatusInfoRequest.to_bytes,
                      (PrinterCommand.SetCommandMode PrinterCommandMode.Raster).to_bytes],
              nsend := 5, nread := 1 }, ?_, ?_⟩
    · simp [print_lines, pseq, send_command, read_status_step, initRun,
        h0, h1, h2, hr0, h3, h4]
    · exact ⟨(full_sequence stv lines settings).drop 4,
        by simp [full_sequence]⟩
  case pos =>
  by_cases h5 : o.sendOk 5 = true
  case neg =>
    right
    refine ⟨{ log := [PrinterCommand.Reset.to_bytes, PrinterCommand.Initialize.to_bytes,
                      PrinterCommand.StatusInfoRequest.to_bytes,
                      (PrinterCommand.SetCommandMode PrinterCommandMode.Raster).to_bytes,
                      (PrinterCommand.SetPrintInformation stv
                        (Int.ofNat lines.length)).to_bytes],
              nsend := 6, nread := 1 }, ?_, ?_⟩
    · simp [print_lines, pseq, send_command, read_status_step, initRun,
        h0, h1, h2, hr0, h3, h4, h5]
    · exact ⟨(full_sequence stv lines settings).drop 5,
        by simp [full_sequence]⟩
  case pos =>
  by_cases h6 : o.sendOk 6 = true
  case neg =>
    right
    refine ⟨{ log := [PrinterCommand.Reset.to_bytes, PrinterCommand.Initialize.to_bytes,
                      PrinterCommand.StatusInfoRequest.to_bytes,
                      (PrinterCommand.SetCommandMode PrinterCommandMode.Raster).to_bytes,
                      (PrinterCommand.SetPrintInformation stv
                        (Int.ofNat lines.length)).to_bytes,
                      (PrinterCommand.SetExpandedMode
                        { cut_at_end := settings.auto_cut,
                          high_resolution_printing := settings.dpi_600 }).to_bytes],
              nsend := 7, nread := 1 }, ?_, ?_⟩
    · simp [print_lines, pseq, send_command, read_status_step, initRun,
        h0, h1, h2, hr0, h3, h4, h5, h6]
    · exact ⟨(full_sequence stv lines settings).drop 6,
        by simp [full_sequence]⟩
  case pos =>
  by_cases h7 : o.sendOk 7 = true
  case neg =>
    right
    refine ⟨{ log := [PrinterCommand.Reset.to_bytes, PrinterCommand.Initialize.to_bytes,
                      PrinterCommand.StatusInfoRequest.to_bytes,
                      (PrinterCommand.SetCommandMode PrinterCommandMode.Raster).to_bytes,
                      (PrinterCommand.SetPrintInformation stv
                        (Int.ofNat lines.length)).to_bytes,
                      (PrinterCommand.SetExpandedMode
                        { cut_at_end := settings.auto_cut,
                          high_resolution_printing := settings.dpi_600 }).to_bytes,
                      (PrinterCommand.SetMode { auto_cut := settings.auto_cut }).to_bytes],
              nsend := 8, nread := 1 }, ?_, ?_⟩
    · simp [print_lines, pseq, send_command, read_status_step, initRun,
        h0, h1, h2, hr0, h3, h4, h5, h6, h7]
    · exact ⟨(full_sequence stv lines settings).drop 7,
        by simp [full_sequence]⟩
  case pos =>
  by_cases h8 : o.sendOk 8 = true
  case neg =>
    right
    refine ⟨{ log := [PrinterCommand.Reset.to_bytes, PrinterCommand.Initialize.to_bytes,
                      PrinterCommand.StatusInfoRequest.to_bytes,
                      (PrinterCommand.SetCommandMode PrinterCommandMode.Raster).to_bytes,
                      (PrinterCommand.SetPrintInformation stv
                        (Int.ofNat lines.length)).to_bytes,
                      (PrinterCommand.SetExpandedMode
                        { cut_at_end := settings.auto_cut,
                          high_resolution_printing := settings.dpi_600 }).to_bytes,
                      (PrinterCommand.SetMode { auto_cut := settings.auto_cut }).to_bytes,
                      (PrinterCommand.SetPageNumber 1).to_bytes],
              nsend := 9, nread := 1 }, ?_, ?_⟩
    · simp [print_lines, pseq, send_command, read_status_step, initRun,
        h0, h1, h2, hr0, h3, h4, h5, h6, h7, h8]
    · exact ⟨(full_sequence stv lines settings).drop 8,
        by simp [full_sequence]⟩
  case pos =>
  -- all nine leading sends and the status read succeeded
  have hE10 : print_lines o lines settings =
      pseq
        (send_raster_lines o lines
          { log := [PrinterCommand.Reset.to_bytes, PrinterCommand.Initialize.to_bytes,
                    PrinterCommand.StatusInfoRequest.to_bytes,
                    (PrinterCommand.SetCommandMode PrinterCommandMode.Raster).to_bytes,
                    (PrinterCommand.SetPrintInformation stv
                      (Int.ofNat lines.length)).to_bytes,
                    (PrinterCommand.SetExpandedMode
                      { cut_at_end := settings.auto_cut,
                        high_resolution_printing := settings.dpi_600 }).to_bytes,
                    (PrinterCommand.SetMode { auto_cut := settings.auto_cut }).to_bytes,
                    (PrinterCommand.SetPageNumber 1).to_bytes,
                    (PrinterCommand.SetMarginAmount 0).to_bytes],
            nsend := 9, nread := 1 })
        (fun s11 =>
          pseq (send_command o PrinterCommand.PrintWithFeeding s11) fun s12 =>
          pseq (read_status_drop o s12) fun s13 =>
          pseq (read_status_drop o s13) fun s14 =>
          pseq (read_status_drop o s14) fun s15 =>
          Except.ok s15) := by
    simp [print_lines, pseq, send_command, read_status_step, initRun,
      h0, h1, h2, hr0, h3, h4, h5, h6, h7, h8]
  cases hsr : send_raster_lines o lines
      { log := [PrinterCommand.Reset.to_bytes, PrinterCommand.Initialize.to_bytes,
                PrinterCommand.StatusInfoRequest.to_bytes,
                (PrinterCommand.SetCommandMode PrinterCommandMode.Raster).to_bytes,
                (PrinterCommand.SetPrintInformation stv
                  (Int.ofNat lines.length)).to_bytes,
                (PrinterCommand.SetExpandedMode
                  { cut_at_end := settings.auto_cut,
                    high_resolution_printing := settings.dpi_600 }).to_bytes,
                (PrinterCommand.SetMode { auto_cut := settings.auto_cut }).to_bytes,
                (PrinterCommand.SetPageNumber 1).to_bytes,
                (PrinterCommand.SetMarginAmount 0).to_bytes],
        nsend := 9, nread := 1 } with
  | error e =>
      right
      rw [hsr] at hE10
      refine ⟨e, by simpa [pseq] using hE10, ?_⟩
      obtain ⟨r0, hr⟩ := send_raster_lines_error o lines _ e hsr
      refine ⟨r0 ++ [PrinterCommand.PrintWithFeeding.to_bytes], ?_⟩
      rw [← List.append_assoc, hr]
      simp [full_sequence, hr0]
  | ok s11 =>
      obtain ⟨hl11, hn11⟩ := send_raster_lines_ok o lines _ s11 hsr
      rw [hsr] at hE10
      simp only [pseq] at hE10
      by_cases hpf : o.sendOk s11.nsend = true
      case neg =>
        right
        simp [send_command, pseq, hpf] at hE10
        refine ⟨_, hE10, [PrinterCommand.PrintWithFeeding.to_bytes], ?_⟩
        simp [hl11, full_sequence, hr0]
      case pos =>
      simp only [send_command, hpf, if_true, pseq] at hE10
      cases hr1 : o.readRes 1 with
      | none =>
          right
          simp [read_status_drop, read_status_step, pseq, hn11, hr1] at hE10
          refine ⟨_, hE10, [], ?_⟩
          simp [hl11, full_sequence, hr0]
      | some st1 =>
      cases hr2 : o.readRes 2 with
      | none =>
          right
          simp [read_status_drop, read_status_step, pseq, hn11, hr1, hr2] at hE10
          refine ⟨_, hE10, [], ?_⟩
          simp [hl11, full_sequence, hr0]
      | some st2 =>
      cases hr3 : o.readRes 3 with
      | none =>
          right
          simp [read_status_drop, read_status_step, pseq, hn11, hr1, hr2, hr3] at hE10
          refine ⟨_, hE10, [], ?_⟩
          simp [hl11, full_sequence, hr0]
      | some st3 =>
          left
          simp [read_status_drop, read_status_step, pseq, hn11, hr1, hr2, hr3] at hE10
          refine ⟨_, hE10, ?_⟩
          simp [hl11, full_sequence, hr0]

/-- C6: print_lines writes to the device exactly the encodings of the fixed
command sequence Reset, Initialize, StatusInfoRequest, (read status),
SetCommandMode(Raster), SetPrintInformation(status, lineCount),
SetExpandedMode, SetMode, SetPageNumber(1), SetMarginAmount(0), then one
RasterGraphicsTransfer per line in order, then PrintWithFeeding, then
three status reads — and if any step returns an error, no command of any
later step is issued: the function returns that error immediately and the
written log is a prefix of the fixed sequence. -/
theorem C6_print_lines_sequence :
    ∀ (o : IOOracle) (lines : List (List Nat)) (settings : Settings),
      (∀ t, print_lines o lines settings = Except.ok t →
        t.log = full_sequence ((o.readRes 0).getD default_status) lines settings) ∧
      (∀ e, print_lines o lines settings = Except.error e →
        ∃ rest, e.log ++ rest
          = full_sequence ((o.readRes 0).getD default_status) lines settings) := by
  intro o lines settings
  rcases print_lines_eval o lines settings with ⟨t, ht, hlog⟩ | ⟨e, he, rest, hlog⟩
  · constructor
    · intro t' h
      have := ht.symm.trans h
      injection this with this
      rw [← this]
      exact hlog
    · intro e' h
      exact absurd (ht.symm.trans h) (by simp)
  · constructor
    · intro t' h
      exact absurd (he.symm.trans h) (by simp)
    · intro e' h
      have := he.symm.trans h
      injection this with this
      rw [← this]
      exact ⟨rest, hlog⟩

/-- Witness for C6: a fully successful run against sample_oracle with one
blank line produces exactly the fixed sequence, and the failure branch at
a concrete always-failing oracle leaves an empty log (a prefix). -/
theorem C6_print_lines_sequence_witness :
    ∃ t, print_lines sample_oracle [sample_line] sample_settings = Except.ok t ∧
      t.log = full_sequence ((sample_oracle.readRes 0).getD default_status)
        [sample_line] sample_settings := by
  obtain ⟨t, ht⟩ : ∃ t,
      print_lines sample_oracle [sample_line] sample_settings = Except.ok t :=
    ⟨_, rfl⟩
  exact ⟨t, ht,
    (C6_print_lines_sequence sample_oracle [sample_line] sample_settings).1 t ht⟩

end PrinterBot
